import Mathlib

/-!
Shallow embedding of the Mantr Go SDK (`client.go`, package `mantr`).

The package is a thin HTTP client: `NewClient` validates the API-key format
and builds a `Client`; `Client.Walk` validates the request, applies defaults
by mutating the caller's request, serializes it to JSON, sends one HTTP POST
and maps the response status code to a typed outcome.

Modelling conventions:
* Go strings are Lean `String`s.  The byte slice `apiKey[:4]` is modelled by
  `String.take 4`: for every valid-UTF-8 string the first four bytes equal
  `"vak_"` exactly when the first four characters do, because the prefix is
  ASCII, so the byte-level and character-level checks accept the same strings.
* Go errors are `GoError`: `sentinel` models a package-level `errors.New`
  value, `formatted` a `fmt.Errorf` without `%w`, and `wrapped` a
  `fmt.Errorf` whose format ends in `%w` (static message part plus the
  wrapped error's message).  Every error the package constructs carries only
  message strings; no error type in the package has any numeric field.
* The mutation of the caller's `*WalkRequest` and the (never exercised)
  mutability of the `*Client` receiver are made explicit: `Walk` returns a
  `WalkOutcome` holding the post-call request, the post-call client and the
  `(*WalkResponse, error)` result.
* The HTTP transport (`http.Client.Do`) is a parameter
  `doHttp : HttpRequest → Except String HttpResponse`; an `Except.error`
  models a transport failure.  A response body is modelled together with the
  one observation the code makes of it — the result of JSON-decoding it into
  a `WalkResponse` (`bodyDecode`); a malformed body is an `Except.error`
  carrying the parse-failure message.
* `json.Marshal` of a `WalkRequest` (strings and ints only) cannot fail in
  Go, so `marshalWalkRequest` is total.  `http.NewRequest` can only fail on
  an unparseable URL; no claim concerns that branch, and it leaves the
  request and client in the same state as a transport failure, so it is
  absorbed into the `doHttp` parameter.
-/

namespace Mantr

/-- Wire-level JSON values, for stating what `json.Marshal` produces. -/
inductive Json where
  | str : String → Json
  | num : Int → Json
  | arr : List Json → Json
  | obj : List (String × Json) → Json

/-- First binding of `key` in an association list (JSON object fields,
HTTP headers). -/
def assocFind {α : Type} : List (String × α) → String → Option α
  | [], _ => none
  | (k, v) :: rest, key => if k = key then some v else assocFind rest key

/-- Look a field up in a JSON object (`none` on non-objects). -/
def Json.lookup : Json → String → Option Json
  | Json.obj fields, key => assocFind fields key
  | _, _ => none

/-- Go error values as this package constructs them: `sentinel` is an
`errors.New` package-level value, `formatted` is `fmt.Errorf` without `%w`,
`wrapped` is `fmt.Errorf` with a trailing `%w` (static part, wrapped
message).  All constructors carry only strings, mirroring the source, which
defines no error struct type with any other field. -/
inductive GoError where
  | sentinel : String → GoError
  | formatted : String → GoError
  | wrapped : String → String → GoError
deriving DecidableEq

/-- Any non-message (structured) numeric payload of an error value.  Every
constructor of `GoError` carries only message strings — the package builds
all errors with `errors.New` / `fmt.Errorf` and defines no error type with a
numeric field — so every case is `none`. -/
def GoError.numericPayload : GoError → Option Int
  | GoError.sentinel _ => none
  | GoError.formatted _ => none
  | GoError.wrapped _ _ => none

/-- `ErrAuthentication` (client.go line 16). -/
def ErrAuthentication : GoError :=
  GoError.sentinel "mantr: authentication failed - invalid API key"

/-- `ErrInsufficientCredits` (client.go line 19). -/
def ErrInsufficientCredits : GoError :=
  GoError.sentinel "mantr: insufficient credits"

/-- `ErrRateLimit` (client.go line 22). -/
def ErrRateLimit : GoError :=
  GoError.sentinel "mantr: rate limit exceeded"

/-- `Client` (client.go lines 26-30).  The `*http.Client` field is modelled
by the one piece of data the code sets on it, the 30-second timeout; the
transport behaviour itself is the `doHttp` parameter of `Walk`. -/
structure Client where
  apiKey : String
  baseURL : String
  httpTimeoutSeconds : Nat
deriving DecidableEq

/-- `Option` (client.go line 128), a functional option mutating the client
under construction.  Named `ClientOption` because `Option` is taken in Lean. -/
def ClientOption : Type := Client → Client

/-- `WithBaseURL` (client.go lines 131-135). -/
def WithBaseURL (url : String) : ClientOption :=
  fun c => { c with baseURL := url }

/-- `NewClient` (client.go lines 33-51): reject the key unless it is at
least 4 long and starts with `vak_`, otherwise build the client with the
production base URL and 30-second timeout and apply the options in order.
The function is pure — its type has no transport parameter — which is the
embedding of "performs no I/O". -/
def NewClient (apiKey : String) (options : List ClientOption) : Except GoError Client :=
  if apiKey.length < 4 ∨ apiKey.take 4 ≠ "vak_" then
    Except.error (GoError.formatted "invalid API key format, must start with 'vak_'")
  else
    Except.ok (options.foldl (fun c opt => opt c)
      { apiKey := apiKey
        baseURL := "https://api.mantr.net"
        httpTimeoutSeconds := 30 })

/-- `WalkRequest` (client.go lines 106-111). -/
structure WalkRequest where
  Phonemes : List String
  Pod : String
  Depth : Int
  Limit : Int
deriving DecidableEq

/-- `PathResult` (client.go lines 114-118).  `Score` is a `float64` the
client never computes with; it is modelled as a rational. -/
structure PathResult where
  Nodes : List String
  Score : Rat
  Depth : Int
deriving DecidableEq

/-- `WalkResponse` (client.go lines 121-125). -/
structure WalkResponse where
  Paths : List PathResult
  LatencyUS : Int
  CreditsUsed : Int
deriving DecidableEq

/-- `json.Marshal` on a `WalkRequest` under the struct tags of client.go
lines 107-110: `phonemes` (no `omitempty`), `pod,omitempty` (omitted when
the empty string), `depth,omitempty` and `limit,omitempty` (omitted when
zero), in struct field order. -/
def marshalWalkRequest (req : WalkRequest) : Json :=
  Json.obj ([("phonemes", Json.arr (req.Phonemes.map Json.str))]
    ++ (if req.Pod = "" then [] else [("pod", Json.str req.Pod)])
    ++ (if req.Depth = 0 then [] else [("depth", Json.num req.Depth)])
    ++ (if req.Limit = 0 then [] else [("limit", Json.num req.Limit)]))

/-- The outbound HTTP request `Walk` builds (client.go lines 72-79). -/
structure HttpRequest where
  method : String
  url : String
  headers : List (String × String)
  body : Json

/-- An HTTP response as `Walk` observes it: the status code, and the result
of JSON-decoding the body into a `WalkResponse` (client.go line 98); a
malformed body is an `Except.error` with the parse-failure message. -/
structure HttpResponse where
  statusCode : Int
  bodyDecode : Except String WalkResponse

/-- The defaulting step of `Walk` (client.go lines 59-65): zero `Depth`
becomes 3, zero `Limit` becomes 100, in place on the caller's request. -/
def defaultWalkRequest (req : WalkRequest) : WalkRequest :=
  { req with
    Depth := if req.Depth = 0 then 3 else req.Depth
    Limit := if req.Limit = 0 then 100 else req.Limit }

/-- Request construction in `Walk` (client.go lines 67-79): POST to
`baseURL + "/v1/walk"` with the marshalled body and the three headers in
the order the code sets them. -/
def Client.buildHttpRequest (c : Client) (req : WalkRequest) : HttpRequest :=
  { method := "POST"
    url := c.baseURL ++ "/v1/walk"
    headers := [("Content-Type", "application/json"),
                ("Authorization", "Bearer " ++ c.apiKey),
                ("User-Agent", "mantr-go/1.0.0")]
    body := marshalWalkRequest req }

/-- Response handling in `Walk` (client.go lines 81-102): a transport
failure is wrapped as `HTTP request failed: %w`; then the status code is
checked in order 401, 402, 429, any other non-200, and finally the body is
decoded, a decode failure being wrapped as `failed to decode response: %w`. -/
def handleWalkResponse : Except String HttpResponse → Except GoError WalkResponse
  | Except.error msg => Except.error (GoError.wrapped "HTTP request failed: " msg)
  | Except.ok resp =>
    if resp.statusCode = 401 then Except.error ErrAuthentication
    else if resp.statusCode = 402 then Except.error ErrInsufficientCredits
    else if resp.statusCode = 429 then Except.error ErrRateLimit
    else if resp.statusCode ≠ 200 then
      Except.error (GoError.formatted ("API error: status " ++ toString resp.statusCode))
    else
      match resp.bodyDecode with
      | Except.error msg =>
          Except.error (GoError.wrapped "failed to decode response: " msg)
      | Except.ok w => Except.ok w

/-- Everything a caller can observe after `Walk` returns: the post-call
state of the caller's `*WalkRequest` (which `Walk` mutates when defaulting),
the post-call state of the `*Client` receiver (which the code never
assigns to), and the `(*WalkResponse, error)` pair. -/
structure WalkOutcome where
  req : WalkRequest
  client : Client
  result : Except GoError WalkResponse

/-- `Walk` (client.go lines 54-103): reject an empty phoneme list before
any defaulting or I/O; otherwise default the request in place, build the
HTTP request and hand the transport's answer to the status/decoding logic. -/
def Client.Walk (c : Client) (doHttp : HttpRequest → Except String HttpResponse)
    (req : WalkRequest) : WalkOutcome :=
  if req.Phonemes.length = 0 then
    { req := req
      client := c
      result := Except.error (GoError.formatted "phonemes cannot be empty") }
  else
    let r := defaultWalkRequest req
    { req := r
      client := c
      result := handleWalkResponse (doHttp (Client.buildHttpRequest c r)) }

/-- C1: `NewClient` succeeds exactly on API keys of length at least 4 whose
first 4 characters are `vak_`; on every other key it returns the format
error naming the expected prefix and no client.  `NewClient` has no
transport parameter, so it performs no I/O on any input. -/
theorem newClient_format_validation (k : String) (opts : List ClientOption) :
    ((∃ c, NewClient k opts = Except.ok c) ↔ (4 ≤ k.length ∧ k.take 4 = "vak_"))
    ∧ (¬ (4 ≤ k.length ∧ k.take 4 = "vak_") →
        NewClient k opts =
          Except.error (GoError.formatted "invalid API key format, must start with 'vak_'")) := by
  unfold NewClient
  by_cases h : k.length < 4 ∨ k.take 4 ≠ "vak_"
  · rw [if_pos h]
    refine ⟨⟨?_, ?_⟩, fun _ => rfl⟩
    · rintro ⟨c, hc⟩
      cases hc
    · rintro ⟨h1, h2⟩
      rcases h with h | h
      · omega
      · exact absurd h2 h
  · rw [if_neg h]
    push_neg at h
    refine ⟨⟨fun _ => ⟨h.1, h.2⟩, fun _ => ⟨_, rfl⟩⟩, fun hn => ?_⟩
    exact absurd ⟨h.1, h.2⟩ hn

/-- Witness for C1 at the concrete rejected key `abc` and the concrete
accepted key `vak_live_x`. -/
theorem newClient_format_validation_witness :
    (((∃ c, NewClient "abc" [] = Except.ok c) ↔
        (4 ≤ ("abc" : String).length ∧ ("abc" : String).take 4 = "vak_"))
      ∧ (¬ (4 ≤ ("abc" : String).length ∧ ("abc" : String).take 4 = "vak_") →
          NewClient "abc" [] =
            Except.error (GoError.formatted "invalid API key format, must start with 'vak_'")))
    ∧ (((∃ c, NewClient "vak_live_x" [] = Except.ok c) ↔
        (4 ≤ ("vak_live_x" : String).length ∧ ("vak_live_x" : String).take 4 = "vak_"))
      ∧ (¬ (4 ≤ ("vak_live_x" : String).length ∧ ("vak_live_x" : String).take 4 = "vak_") →
          NewClient "vak_live_x" [] =
            Except.error (GoError.formatted "invalid API key format, must start with 'vak_'"))) :=
  ⟨newClient_format_validation "abc" [], newClient_format_validation "vak_live_x" []⟩

/-- C2: on a request with an empty phoneme sequence, `Walk` returns the
validation error and no response, leaves the request exactly as it was (no
defaulting, hence nothing serialized), and never consults the transport:
the outcome is the same for every `doHttp`, which is the embedding of
"before any network I/O". -/
theorem walk_empty_phonemes_rejected (c : Client)
    (doHttp : HttpRequest → Except String HttpResponse) (req : WalkRequest)
    (h : req.Phonemes = []) :
    Client.Walk c doHttp req =
      { req := req
        client := c
        result := Except.error (GoError.formatted "phonemes cannot be empty") } := by
  unfold Client.Walk
  rw [if_pos (by simp [h])]

/-- Witness for C2: a concrete client, a transport that would answer 200,
and a request with `Phonemes = []`. -/
theorem walk_empty_phonemes_rejected_witness :
    Client.Walk { apiKey := "vak_k", baseURL := "https://api.mantr.net", httpTimeoutSeconds := 30 }
        (fun _ => Except.ok { statusCode := 200, bodyDecode := Except.error "ignored" })
        { Phonemes := [], Pod := "", Depth := 0, Limit := 0 } =
      { req := { Phonemes := [], Pod := "", Depth := 0, Limit := 0 }
        client := { apiKey := "vak_k", baseURL := "https://api.mantr.net", httpTimeoutSeconds := 30 }
        result := Except.error (GoError.formatted "phonemes cannot be empty") } :=
  walk_empty_phonemes_rejected _ _ _ rfl

/-- C3: on a valid request with zero `Depth` and zero `Limit`, `Walk`
rewrites the caller's request to `Depth = 3`, `Limit = 100` before
serialization — the outcome's `req` field is the mutated request — and the
wire payload it hands the transport carries `depth = 3` and `limit = 100`. -/
theorem walk_defaults_zero_depth_limit (c : Client)
    (doHttp : HttpRequest → Except String HttpResponse) (req : WalkRequest)
    (h1 : req.Phonemes ≠ []) (h2 : req.Depth = 0) (h3 : req.Limit = 0) :
    Client.Walk c doHttp req =
      { req := { req with Depth := 3, Limit := 100 }
        client := c
        result := handleWalkResponse (doHttp
          (Client.buildHttpRequest c { req with Depth := 3, Limit := 100 })) }
    ∧ (Client.buildHttpRequest c { req with Depth := 3, Limit := 100 }).body.lookup "depth"
        = some (Json.num 3)
    ∧ (Client.buildHttpRequest c { req with Depth := 3, Limit := 100 }).body.lookup "limit"
        = some (Json.num 100) := by
  have hd : defaultWalkRequest req = { req with Depth := 3, Limit := 100 } := by
    simp [defaultWalkRequest, h2, h3]
  refine ⟨?_, ?_, ?_⟩
  · unfold Client.Walk
    rw [if_neg (by simp [h1]), hd]
  · by_cases hp : req.Pod = "" <;>
      simp +decide [Client.buildHttpRequest, marshalWalkRequest, Json.lookup, assocFind, hp]
  · by_cases hp : req.Pod = "" <;>
      simp +decide [Client.buildHttpRequest, marshalWalkRequest, Json.lookup, assocFind, hp]

/-- Witness for C3 at a concrete request `{Phonemes := [dharma], Depth := 0,
Limit := 0}`. -/
theorem walk_defaults_zero_depth_limit_witness :
    Client.Walk { apiKey := "vak_k", baseURL := "https://api.mantr.net", httpTimeoutSeconds := 30 }
        (fun _ => Except.error "server down")
        { Phonemes := ["dharma"], Pod := "", Depth := 0, Limit := 0 } =
      { req := { Phonemes := ["dharma"], Pod := "", Depth := 3, Limit := 100 }
        client := { apiKey := "vak_k", baseURL := "https://api.mantr.net", httpTimeoutSeconds := 30 }
        result := handleWalkResponse (Except.error "server down") }
    ∧ (Client.buildHttpRequest
          { apiKey := "vak_k", baseURL := "https://api.mantr.net", httpTimeoutSeconds := 30 }
          { Phonemes := ["dharma"], Pod := "", Depth := 3, Limit := 100 }).body.lookup "depth"
        = some (Json.num 3)
    ∧ (Client.buildHttpRequest
          { apiKey := "vak_k", baseURL := "https://api.mantr.net", httpTimeoutSeconds := 30 }
          { Phonemes := ["dharma"], Pod := "", Depth := 3, Limit := 100 }).body.lookup "limit"
        = some (Json.num 100) :=
  walk_defaults_zero_depth_limit _ _ _ (by simp) rfl rfl

/-- C4: on a valid request with nonzero `Depth` and `Limit`, `Walk` leaves
the request exactly as supplied and the wire payload carries those exact
values; defaulting never overrides a nonzero field. -/
theorem walk_preserves_nonzero_depth_limit (c : Client)
    (doHttp : HttpRequest → Except String HttpResponse) (req : WalkRequest)
    (h1 : req.Phonemes ≠ []) (h2 : req.Depth ≠ 0) (h3 : req.Limit ≠ 0) :
    Client.Walk c doHttp req =
      { req := req
        client := c
        result := handleWalkResponse (doHttp (Client.buildHttpRequest c req)) }
    ∧ (Client.buildHttpRequest c req).body.lookup "depth" = some (Json.num req.Depth)
    ∧ (Client.buildHttpRequest c req).body.lookup "limit" = some (Json.num req.Limit) := by
  have hd : defaultWalkRequest req = req := by
    simp [defaultWalkRequest, h2, h3]
  refine ⟨?_, ?_, ?_⟩
  · unfold Client.Walk
    rw [if_neg (by simp [h1]), hd]
  · by_cases hp : req.Pod = "" <;>
      simp +decide [Client.buildHttpRequest, marshalWalkRequest, Json.lookup, assocFind,
        hp, h2, h3]
  · by_cases hp : req.Pod = "" <;>
      simp +decide [Client.buildHttpRequest, marshalWalkRequest, Json.lookup, assocFind,
        hp, h2, h3]

/-- Witness for C4 at a concrete request with explicit `Depth = 5`,
`Limit = 10`. -/
theorem walk_preserves_nonzero_depth_limit_witness :
    Client.Walk { apiKey := "vak_k", baseURL := "https://api.mantr.net", httpTimeoutSeconds := 30 }
        (fun _ => Except.error "server down")
        { Phonemes := ["karma"], Pod := "p1", Depth := 5, Limit := 10 } =
      { req := { Phonemes := ["karma"], Pod := "p1", Depth := 5, Limit := 10 }
        client := { apiKey := "vak_k", baseURL := "https://api.mantr.net", httpTimeoutSeconds := 30 }
        result := handleWalkResponse (Except.error "server down") }
    ∧ (Client.buildHttpRequest
          { apiKey := "vak_k", baseURL := "https://api.mantr.net", httpTimeoutSeconds := 30 }
          { Phonemes := ["karma"], Pod := "p1", Depth := 5, Limit := 10 }).body.lookup "depth"
        = some (Json.num 5)
    ∧ (Client.buildHttpRequest
          { apiKey := "vak_k", baseURL := "https://api.mantr.net", httpTimeoutSeconds := 30 }
          { Phonemes := ["karma"], Pod := "p1", Depth := 5, Limit := 10 }).body.lookup "limit"
        = some (Json.num 10) :=
  walk_preserves_nonzero_depth_limit _ _ _ (by simp) (by decide) (by decide)

/-- C5: the status code of a received response is mapped first-match-first:
401 to the authentication error, then 402 to the insufficient-credits
error, then 429 to the rate-limit error, then any other non-200 to the
generic `API error: status %d` error; only a 200 reaches the body decode,
whose failure is wrapped as `failed to decode response: %w` and whose
success returns the decoded `WalkResponse`.  The result type `Except`
makes every error case return no `WalkResponse`. -/
theorem walk_status_code_mapping (resp : HttpResponse) :
    (resp.statusCode = 401 →
      handleWalkResponse (Except.ok resp) = Except.error ErrAuthentication)
    ∧ (resp.statusCode = 402 →
      handleWalkResponse (Except.ok resp) = Except.error ErrInsufficientCredits)
    ∧ (resp.statusCode = 429 →
      handleWalkResponse (Except.ok resp) = Except.error ErrRateLimit)
    ∧ (resp.statusCode ≠ 401 → resp.statusCode ≠ 402 → resp.statusCode ≠ 429 →
        resp.statusCode ≠ 200 →
      handleWalkResponse (Except.ok resp) =
        Except.error (GoError.formatted ("API error: status " ++ toString resp.statusCode)))
    ∧ (resp.statusCode = 200 →
      ((∀ w, resp.bodyDecode = Except.ok w →
          handleWalkResponse (Except.ok resp) = Except.ok w)
        ∧ (∀ msg, resp.bodyDecode = Except.error msg →
          handleWalkResponse (Except.ok resp) =
            Except.error (GoError.wrapped "failed to decode response: " msg)))) := by
  refine ⟨fun h => ?_, fun h => ?_, fun h => ?_, fun h1 h2 h3 h4 => ?_, fun h => ⟨?_, ?_⟩⟩
  · simp [handleWalkResponse, h]
  · simp [handleWalkResponse, h]
  · simp [handleWalkResponse, h]
  · simp [handleWalkResponse, h1, h2, h3, h4]
  · intro w hw
    simp [handleWalkResponse, h, hw]
  · intro msg hmsg
    simp [handleWalkResponse, h, hmsg]

/-- Witness for C5 at a concrete 401 response with a body that would not
decode. -/
theorem walk_status_code_mapping_witness :
    (((401 : Int) = 401 →
      handleWalkResponse (Except.ok { statusCode := 401, bodyDecode := Except.error "bad json" })
        = Except.error ErrAuthentication)
    ∧ ((401 : Int) = 402 →
      handleWalkResponse (Except.ok { statusCode := 401, bodyDecode := Except.error "bad json" })
        = Except.error ErrInsufficientCredits)
    ∧ ((401 : Int) = 429 →
      handleWalkResponse (Except.ok { statusCode := 401, bodyDecode := Except.error "bad json" })
        = Except.error ErrRateLimit)
    ∧ ((401 : Int) ≠ 401 → (401 : Int) ≠ 402 → (401 : Int) ≠ 429 → (401 : Int) ≠ 200 →
      handleWalkResponse (Except.ok { statusCode := 401, bodyDecode := Except.error "bad json" })
        = Except.error (GoError.formatted ("API error: status " ++ toString (401 : Int))))
    ∧ ((401 : Int) = 200 →
      ((∀ w, (Except.error "bad json" : Except String WalkResponse) = Except.ok w →
          handleWalkResponse
            (Except.ok { statusCode := 401, bodyDecode := Except.error "bad json" })
            = Except.ok w)
        ∧ (∀ msg, (Except.error "bad json" : Except String WalkResponse) = Except.error msg →
          handleWalkResponse
            (Except.ok { statusCode := 401, bodyDecode := Except.error "bad json" })
            = Except.error (GoError.wrapped "failed to decode response: " msg))))) :=
  walk_status_code_mapping { statusCode := 401, bodyDecode := Except.error "bad json" }

/-- C6 counterexample: for a simulated status-500 response, the error `Walk`
returns is `GoError.formatted "API error: status 500"` — a bare
`fmt.Errorf` string error.  Its only payload is the message string: its
structured numeric payload is `none` (the package defines no error type
with a numeric field), so the status code is *not* carried as inspectable
data, only embedded in the message text, contradicting the claim. -/
theorem walk_500_status_only_in_message_string :
    handleWalkResponse (Except.ok { statusCode := 500, bodyDecode := Except.error "ignored" })
      = Except.error (GoError.formatted "API error: status 500")
    ∧ GoError.numericPayload (GoError.formatted "API error: status 500") = none := by
  constructor
  · simp +decide [handleWalkResponse]
  · rfl

/-- C6 amended: for every non-200 status other than 401, 402 and 429, the
generic error `Walk` returns embeds the numeric status code in its message
string `API error: status %d`; the error value carries no structured
numeric payload for caller inspection. -/
theorem walk_generic_status_error_message (resp : HttpResponse)
    (h1 : resp.statusCode ≠ 401) (h2 : resp.statusCode ≠ 402)
    (h3 : resp.statusCode ≠ 429) (h4 : resp.statusCode ≠ 200) :
    handleWalkResponse (Except.ok resp) =
      Except.error (GoError.formatted ("API error: status " ++ toString resp.statusCode))
    ∧ GoError.numericPayload
        (GoError.formatted ("API error: status " ++ toString resp.statusCode)) = none := by
  exact ⟨by simp [handleWalkResponse, h1, h2, h3, h4], rfl⟩

/-- Witness for the amended C6 at a concrete status-500 response. -/
theorem walk_generic_status_error_message_witness :
    handleWalkResponse (Except.ok
        { statusCode := 500
          bodyDecode := Except.ok (WalkResponse.mk [] 0 0) }) =
      Except.error (GoError.formatted ("API error: status " ++ toString (500 : Int)))
    ∧ GoError.numericPayload
        (GoError.formatted ("API error: status " ++ toString (500 : Int))) = none :=
  walk_generic_status_error_message
    { statusCode := 500, bodyDecode := Except.ok (WalkResponse.mk [] 0 0) }
    (by decide) (by decide) (by decide) (by decide)

/-- C7: for every request that passes validation, the marshalled JSON
object has `phonemes` always present, `pod` present exactly when `Pod` is
nonempty, `depth` present exactly when `Depth` is nonzero and `limit`
present exactly when `Limit` is nonzero. -/
theorem marshal_field_presence (req : WalkRequest) (h : req.Phonemes ≠ []) :
    (marshalWalkRequest req).lookup "phonemes"
        = some (Json.arr (req.Phonemes.map Json.str))
    ∧ ((marshalWalkRequest req).lookup "pod"
        = if req.Pod = "" then none else some (Json.str req.Pod))
    ∧ ((marshalWalkRequest req).lookup "depth"
        = if req.Depth = 0 then none else some (Json.num req.Depth))
    ∧ ((marshalWalkRequest req).lookup "limit"
        = if req.Limit = 0 then none else some (Json.num req.Limit)) := by
  by_cases hp : req.Pod = "" <;> by_cases hd : req.Depth = 0 <;> by_cases hl : req.Limit = 0 <;>
    simp +decide [marshalWalkRequest, Json.lookup, assocFind, hp, hd, hl]

/-- Witness for C7 at a concrete request with empty `Pod`, nonzero `Depth`
and zero `Limit`. -/
theorem marshal_field_presence_witness :
    (marshalWalkRequest { Phonemes := ["a", "b"], Pod := "", Depth := 2, Limit := 0 }).lookup
          "phonemes"
        = some (Json.arr ((["a", "b"] : List String).map Json.str))
    ∧ ((marshalWalkRequest { Phonemes := ["a", "b"], Pod := "", Depth := 2, Limit := 0 }).lookup
          "pod"
        = if ("" : String) = "" then none else some (Json.str ""))
    ∧ ((marshalWalkRequest { Phonemes := ["a", "b"], Pod := "", Depth := 2, Limit := 0 }).lookup
          "depth"
        = if (2 : Int) = 0 then none else some (Json.num 2))
    ∧ ((marshalWalkRequest { Phonemes := ["a", "b"], Pod := "", Depth := 2, Limit := 0 }).lookup
          "limit"
        = if (0 : Int) = 0 then none else some (Json.num 0)) :=
  marshal_field_presence { Phonemes := ["a", "b"], Pod := "", Depth := 2, Limit := 0 } (by simp)

/-- C8: on every call, the only caller-visible mutation is the defaulting
of `Depth` and `Limit` on the caller's request: the client (all three
fields) comes back unchanged, the request's `Phonemes` and `Pod` come back
unchanged, and the post-call `Depth` is either the original or 3, the
post-call `Limit` either the original or 100. -/
theorem walk_frame_condition (c : Client)
    (doHttp : HttpRequest → Except String HttpResponse) (req : WalkRequest) :
    (Client.Walk c doHttp req).client = c
    ∧ (Client.Walk c doHttp req).req.Phonemes = req.Phonemes
    ∧ (Client.Walk c doHttp req).req.Pod = req.Pod
    ∧ ((Client.Walk c doHttp req).req.Depth = req.Depth
        ∨ (Client.Walk c doHttp req).req.Depth = 3)
    ∧ ((Client.Walk c doHttp req).req.Limit = req.Limit
        ∨ (Client.Walk c doHttp req).req.Limit = 100) := by
  unfold Client.Walk
  by_cases h : req.Phonemes.length = 0
  · simp [h]
  · by_cases hd : req.Depth = 0 <;> by_cases hl : req.Limit = 0 <;>
      simp [h, defaultWalkRequest, hd, hl]

/-- C9: the defaulting step is idempotent, so a second `Walk` call on the
request object mutated by a first call leaves the request fixed and sends
the identical serialized wire payload. -/
theorem walk_defaulting_idempotent (c : Client)
    (doHttp : HttpRequest → Except String HttpResponse) (req : WalkRequest)
    (h : req.Phonemes ≠ []) :
    defaultWalkRequest (defaultWalkRequest req) = defaultWalkRequest req
    ∧ (Client.Walk c doHttp (Client.Walk c doHttp req).req).req
        = (Client.Walk c doHttp req).req
    ∧ marshalWalkRequest (defaultWalkRequest ((Client.Walk c doHttp req).req))
        = marshalWalkRequest (defaultWalkRequest req) := by
  have hidem : defaultWalkRequest (defaultWalkRequest req) = defaultWalkRequest req := by
    by_cases hd : req.Depth = 0 <;> by_cases hl : req.Limit = 0 <;>
      simp +decide [defaultWalkRequest, hd, hl]
  have hreq : (Client.Walk c doHttp req).req = defaultWalkRequest req := by
    unfold Client.Walk
    rw [if_neg (by simp [h])]
  have hne : (defaultWalkRequest req).Phonemes ≠ [] := by
    simpa [defaultWalkRequest] using h
  refine ⟨hidem, ?_, ?_⟩
  · rw [hreq]
    unfold Client.Walk
    rw [if_neg (by simp [hne])]
    exact hidem
  · rw [hreq, hidem]

/-- Witness for C9 at a concrete request with zero `Depth` and `Limit`. -/
theorem walk_defaulting_idempotent_witness :
    defaultWalkRequest (defaultWalkRequest { Phonemes := ["a"], Pod := "", Depth := 0, Limit := 0 })
        = defaultWalkRequest { Phonemes := ["a"], Pod := "", Depth := 0, Limit := 0 }
    ∧ (Client.Walk { apiKey := "vak_k", baseURL := "u", httpTimeoutSeconds := 30 }
          (fun _ => Except.error "down")
          (Client.Walk { apiKey := "vak_k", baseURL := "u", httpTimeoutSeconds := 30 }
            (fun _ => Except.error "down")
            { Phonemes := ["a"], Pod := "", Depth := 0, Limit := 0 }).req).req
        = (Client.Walk { apiKey := "vak_k", baseURL := "u", httpTimeoutSeconds := 30 }
            (fun _ => Except.error "down")
            { Phonemes := ["a"], Pod := "", Depth := 0, Limit := 0 }).req
    ∧ marshalWalkRequest (defaultWalkRequest
          ((Client.Walk { apiKey := "vak_k", baseURL := "u", httpTimeoutSeconds := 30 }
            (fun _ => Except.error "down")
            { Phonemes := ["a"], Pod := "", Depth := 0, Limit := 0 }).req))
        = marshalWalkRequest (defaultWalkRequest
            { Phonemes := ["a"], Pod := "", Depth := 0, Limit := 0 }) :=
  walk_defaulting_idempotent _ _ _ (by simp)

/-- C10: the credential check is prefix-only — every key of the form
`vak_ ++ s` is accepted, for every suffix `s` including the empty one — and
an accepted key is stored verbatim in the client and later sent as the
`Authorization` header value `Bearer ` ++ apiKey on every request `Walk`
builds. -/
theorem newClient_prefix_only (s : String) (opts : List ClientOption) :
    (∃ c, NewClient ("vak_" ++ s) opts = Except.ok c)
    ∧ (∀ c, NewClient ("vak_" ++ s) [] = Except.ok c →
        c.apiKey = "vak_" ++ s
        ∧ (∀ req, assocFind (Client.buildHttpRequest c req).headers "Authorization"
            = some ("Bearer " ++ ("vak_" ++ s)))) := by
  have hcond : ¬ (("vak_" ++ s).length < 4 ∨ ("vak_" ++ s).take 4 ≠ "vak_") := by
    push_neg
    constructor
    · have h4 : ("vak_" : String).length = 4 := rfl
      simp [String.length_append, h4]
    · apply String.ext
      simp [String.data_take, String.data_append]
  constructor
  · unfold NewClient
    rw [if_neg hcond]
    exact ⟨_, rfl⟩
  · intro c hc
    unfold NewClient at hc
    rw [if_neg hcond] at hc
    cases hc
    refine ⟨rfl, fun req => ?_⟩
    simp +decide [Client.buildHttpRequest, assocFind]

/-- Witness for C10 at the empty suffix: the bare 4-character key `vak_`
is accepted, stored verbatim, and sent as `Bearer vak_`. -/
theorem newClient_prefix_only_witness :
    (∃ c, NewClient ("vak_" ++ "") [] = Except.ok c)
    ∧ (∀ c, NewClient ("vak_" ++ "") [] = Except.ok c →
        c.apiKey = "vak_" ++ ""
        ∧ (∀ req, assocFind (Client.buildHttpRequest c req).headers "Authorization"
            = some ("Bearer " ++ ("vak_" ++ "")))) :=
  newClient_prefix_only "" []

end Mantr
